import Mathlib

/-!
Verification of the CTC (Connectionist Temporal Classification) loss adapter
`theano/tensor/nnet/ctc_wrapper.c`: a shallow embedding of its support code
(`ctc_context_init`, `ctc_context_destroy`, `ctc_check_result`,
`create_contiguous_input_lengths`, `create_flat_labels`) and of the apply
function `APPLY_SPECIFIC(ctc_cost_cpu)`, followed by theorems settling the
specification claims.

Modelling conventions:
* C `int` values are `Int`; array dimensions (`npy_intp`, nonnegative here)
  are `Nat`.
* A heap pointer that may be NULL is `Option α` (`none` = NULL); an owned
  buffer's contents are carried inside the `some`.
* Outcomes chosen outside this file's code (whether a `malloc` or a NumPy
  allocation succeeds, the status codes returned by the external warp-ctc
  library, the fresh object identities of newly allocated arrays) are
  supplied by an `Oracle` record, so every exit path of the C function is
  reachable in the model.
* A NumPy array is a record with an identity (`id`, standing for the object
  pointer, used for the reuse-vs-reallocate and no-copy identity claims),
  its dimensions, dtype, C-contiguity flag, and element data in C order.
-/

/-- Element type tag of a NumPy array (only the tags this file touches). -/
inductive DType where
  | float32
  | int32
  | other
deriving DecidableEq, Repr

/-- Model of a `PyArrayObject`: object identity, shape, dtype, C-contiguity,
and element data flattened in C order. -/
structure NdArray where
  id : Nat
  dims : List Nat
  dtype : DType
  contiguous : Bool
  data : List Int
deriving DecidableEq, Repr

/-- `struct ctcOptions` of the external warp-ctc library: compute location
and CPU thread count (the two fields `ctc_context_init` touches). -/
structure ctcOptions where
  loc : Int
  num_threads : Int
deriving DecidableEq, Repr

/-- warp-ctc `CTC_CPU` enumerator. -/
def CTC_CPU : Int := 0

/-- warp-ctc `CTC_STATUS_SUCCESS` status code. -/
def CTC_STATUS_SUCCESS : Int := 0

/-- `ctc_context_t`: the adapter's per-call context holding the library
options and the five owned resources (all pointers; `none` = NULL/freed). -/
structure CtcContext where
  options : ctcOptions
  workspace : Option Nat
  input_lengths : Option (List Int)
  flat_labels : Option (List Int)
  label_lengths : Option (List Int)
  activations_copy : Option NdArray
deriving DecidableEq, Repr

/-- `ctc_context_init`, embedded exactly as written: the C code copies
`context->options` **by value** into a local `struct ctcOptions options`,
memsets the local to zero, sets `loc = CTC_CPU` and `num_threads = 1` on
the local, and never writes it back — so `context->options` keeps whatever
the enclosing `malloc` left there. The five resource pointers are set to
NULL. -/
def ctc_context_init (context : CtcContext) : CtcContext :=
  let options := context.options
  let options := { options with loc := 0, num_threads := 0 }
  let options := { options with loc := CTC_CPU }
  let _dead_local := { options with num_threads := 1 }
  { context with
    workspace := none
    input_lengths := none
    flat_labels := none
    label_lengths := none
    activations_copy := none }

/-- `ctc_context_destroy`: frees each non-NULL owned buffer and releases the
borrowed/owned activations-copy reference. -/
def ctc_context_destroy (context : CtcContext) : CtcContext :=
  { context with
    workspace := none
    input_lengths := none
    flat_labels := none
    label_lengths := none
    activations_copy := none }

/-- A raised Python exception: its type and formatted message. -/
inductive PyErr where
  | MemoryError (msg : String)
  | RuntimeError (msg : String)
deriving DecidableEq, Repr

/-- `ctc_check_result`: on a non-success status it formats
`"%s | CTC library error message: %s"` from the stage message and the
library's `ctcGetStatusString` and returns 1; on success it returns 0.
`statusString` stands for the external `ctcGetStatusString`. -/
def ctc_check_result (retcode : Int) (msg : String)
    (statusString : Int → String) : Option PyErr × Int :=
  if retcode ≠ CTC_STATUS_SUCCESS then
    (some (PyErr.RuntimeError
      (msg ++ " | CTC library error message: " ++ statusString retcode)), 1)
  else
    (none, 0)

/-- `create_contiguous_input_lengths`: mallocs an `int` buffer of
`dims[0]` elements and copies the 1-D array's elements into it; on malloc
failure the out-parameter is left NULL. `alloc_ok` is the malloc outcome. -/
def create_contiguous_input_lengths (input_lengths_arr : List Int)
    (alloc_ok : Bool) : Option (List Int) :=
  if alloc_ok then some input_lengths_arr else none

/-- Inner column loop of `create_flat_labels` over one row: each label
`>= 0` is written at the running flat index (modelled by appending to the
accumulator) and bumps the row's length counter; negative labels are
skipped. -/
def ctc_row_loop : List Int → List Int → Int → List Int × Int
  | [], flat_acc, label_length => (flat_acc, label_length)
  | label :: rest, flat_acc, label_length =>
      if label ≥ 0 then
        ctc_row_loop rest (flat_acc ++ [label]) (label_length + 1)
      else
        ctc_row_loop rest flat_acc label_length

/-- Outer row loop of `create_flat_labels`: scans rows in order, extending
the flat buffer and recording each row's valid-label count. -/
def ctc_flat_loop : List (List Int) → List Int → List Int → List Int × List Int
  | [], flat_acc, len_acc => (flat_acc, len_acc)
  | row :: rest, flat_acc, len_acc =>
      let scanned := ctc_row_loop row flat_acc 0
      ctc_flat_loop rest scanned.1 (len_acc ++ [scanned.2])

/-- `create_flat_labels`: takes the current values of the two out-parameters
(`flat_labels0`, `label_lengths0`) and the outcomes of its two mallocs.
* first malloc (flat buffer, `rows*cols` ints) fails: `*flat_labels` is
  assigned the NULL result, `*label_lengths` is untouched, return;
* second malloc (`rows` ints) fails: the flat buffer is freed and its
  pointer reset to NULL, `*label_lengths` holds the NULL result, return;
* both succeed: the nested scan loop fills both buffers. -/
def create_flat_labels (label_matrix : List (List Int))
    (flat_labels0 label_lengths0 : Option (List Int))
    (alloc_flat_ok alloc_lengths_ok : Bool) :
    Option (List Int) × Option (List Int) :=
  if !alloc_flat_ok then
    (none, label_lengths0)
  else if !alloc_lengths_ok then
    (none, none)
  else
    let filled := ctc_flat_loop label_matrix [] []
    (some filled.1, some filled.2)

/-- Spec-side padding predicate, in the spec's exact words: a label entry is
padding exactly when its value is negative (`value < 0`), whatever the
specific negative value. -/
def spec_is_padding (v : Int) : Bool := decide (v < 0)

/-- Spec-side flattening: the non-padding values of each row, left to right,
rows concatenated in order (row-major). -/
def spec_flat_labels (m : List (List Int)) : List Int :=
  (m.map (fun row => row.filter (fun v => !spec_is_padding v))).flatten

/-- Spec-side per-row valid-label count: the number of non-negative entries
of the row. -/
def spec_row_count (row : List Int) : Nat :=
  (row.filter (fun v => 0 ≤ v)).length

/-- Spec-side total count of non-negative entries of the whole matrix. -/
def spec_nonneg_count (m : List (List Int)) : Nat :=
  (m.map spec_row_count).sum

/-- Model of NumPy `PyArray_GETCONTIGUOUS` (external collaborator, per its
documented contract): on success, a freshly allocated C-contiguous array
with the same shape, dtype and element values as the argument; on
allocation failure, NULL. -/
def PyArray_GETCONTIGUOUS (arr : NdArray) (alloc_ok : Bool)
    (fresh_id : Nat) : Option NdArray :=
  if alloc_ok then some { arr with id := fresh_id, contiguous := true }
  else none

/-- Model of NumPy `PyArray_ZEROS` (external collaborator, per its
documented contract): on success, a freshly allocated C-contiguous
zero-initialized array of the given shape and dtype; on failure, NULL. -/
def PyArray_ZEROS (dims : List Nat) (dtype : DType) (alloc_ok : Bool)
    (fresh_id : Nat) : Option NdArray :=
  if alloc_ok then
    some { id := fresh_id, dims := dims, dtype := dtype, contiguous := true,
           data := List.replicate dims.prod 0 }
  else none

/-- All outcomes decided outside the adapter's own code during one call of
`ctc_cost_cpu`: the garbage `malloc` leaves in `context->options`, the
success of each allocation, the fresh object identities NumPy hands out,
and the external library's status codes, queried workspace size and
`ctcGetStatusString` table. -/
structure Oracle where
  init_options : ctcOptions
  getcontiguous_ok : Bool
  getcontiguous_id : Nat
  input_lengths_ok : Bool
  flat_labels_ok : Bool
  label_lengths_ok : Bool
  costs_ok : Bool
  costs_id : Nat
  gradients_ok : Bool
  gradients_id : Nat
  ws_status : Int
  ws_size : Nat
  workspace_ok : Bool
  compute_status : Int
  statusString : Int → String

/-- Observable outcome of one call of `APPLY_SPECIFIC(ctc_cost_cpu)`:
the C return value, the raised exception if any, the final values of the
two output handles, the state of the `ctc_context_t` at the `return`
statement (`none` when `free(context)` ran; buffers still `some` inside a
`some` context were never freed, i.e. leaked), which pointer the library
would be given as `activations`, the contiguous copy if one was made, and
what reached the external library (stage entry flags, the
minibatch/alphabet sizes and the options value passed). -/
structure CallResult where
  ret : Int
  err : Option PyErr
  out_costs : Option NdArray
  out_gradients : Option NdArray
  context_at_return : Option CtcContext
  activations_ptr : Option Nat
  activations_copy_made : Option NdArray
  size_query_invoked : Bool
  compute_invoked : Bool
  lib_minibatch : Option Nat
  lib_alphabet : Option Nat
  lib_options : Option ctcOptions
deriving DecidableEq, Repr

/-- Costs-output stage of `APPLY_SPECIFIC(ctc_cost_cpu)` (C lines 167-189):
the existing handle is kept exactly when it is non-NULL, 1-D, and of length
`cost_size`; otherwise it is XDECREF'd and `PyArray_ZEROS` is asked for a
fresh 1-D float32 array of length `cost_size`. -/
def ctc_costs_output (o : Oracle) (out_costs0 : Option NdArray)
    (cost_size : Nat) : Option NdArray :=
  let costs_realloc : Bool :=
    match out_costs0 with
    | none => true
    | some c => c.dims.length != 1 || c.dims.getD 0 0 != cost_size
  if costs_realloc then
    PyArray_ZEROS [cost_size] DType.float32 o.costs_ok o.costs_id
  else out_costs0

/-- Gradients-output stage of `APPLY_SPECIFIC(ctc_cost_cpu)` (C lines
191-213): the existing handle is kept exactly when it is non-NULL, 3-D, and
its three dimensions equal the activations dimensions; otherwise it is
XDECREF'd and `PyArray_ZEROS` is asked for a fresh 3-D float32 array of the
activations shape. -/
def ctc_grads_output (o : Oracle) (out_gradients0 : Option NdArray)
    (adims : List Nat) : Option NdArray :=
  let grads_realloc : Bool :=
    match out_gradients0 with
    | none => true
    | some g =>
      g.dims.length != 3
        || g.dims.getD 0 0 != adims.getD 0 0
        || g.dims.getD 1 0 != adims.getD 1 0
        || g.dims.getD 2 0 != adims.getD 2 0
  if grads_realloc then
    PyArray_ZEROS (adims.take 3) DType.float32 o.gradients_ok o.gradients_id
  else out_gradients0

/-- Final stage of `APPLY_SPECIFIC(ctc_cost_cpu)` (C lines 217-251):
size-query the external library through `ctc_check_result` (returning the
library error without cleanup on a bad status), malloc the workspace
(destroying the context and raising `MemoryError` on failure), run the
compute call through `ctc_check_result` (again returning without cleanup
on a bad status), and on success destroy the context, free the context
struct and return 0. -/
def ctc_cost_tail (o : Oracle) (context3 : CtcContext)
    (activations : Nat) (copy_made : Option NdArray)
    (costs_arr grads_arr : NdArray)
    (minibatch_size alphabet_size : Nat) : CallResult :=
  let check_ws := ctc_check_result o.ws_status
    "Failed to obtain CTC workspace size!" o.statusString
  if check_ws.2 ≠ 0 then
    { ret := 1
      err := check_ws.1
      out_costs := some costs_arr
      out_gradients := some grads_arr
      context_at_return := some context3
      activations_ptr := some activations
      activations_copy_made := copy_made
      size_query_invoked := true
      compute_invoked := false
      lib_minibatch := some minibatch_size
      lib_alphabet := some alphabet_size
      lib_options := some context3.options }
  else
  match (if o.workspace_ok then some o.ws_size else none) with
  | none =>
    { ret := 1
      err := some (PyErr.MemoryError "Failed to allocate memory for CTC workspace!")
      out_costs := some costs_arr
      out_gradients := some grads_arr
      context_at_return := some (ctc_context_destroy context3)
      activations_ptr := some activations
      activations_copy_made := copy_made
      size_query_invoked := true
      compute_invoked := false
      lib_minibatch := some minibatch_size
      lib_alphabet := some alphabet_size
      lib_options := some context3.options }
  | some ws =>
  let context4 := { context3 with workspace := some ws }
  let check_compute := ctc_check_result o.compute_status
    "Failed to compute CTC loss function!" o.statusString
  if check_compute.2 ≠ 0 then
    { ret := 1
      err := check_compute.1
      out_costs := some costs_arr
      out_gradients := some grads_arr
      context_at_return := some context4
      activations_ptr := some activations
      activations_copy_made := copy_made
      size_query_invoked := true
      compute_invoked := true
      lib_minibatch := some minibatch_size
      lib_alphabet := some alphabet_size
      lib_options := some context4.options }
  else
    { ret := 0
      err := none
      out_costs := some costs_arr
      out_gradients := some grads_arr
      context_at_return := none
      activations_ptr := some activations
      activations_copy_made := copy_made
      size_query_invoked := true
      compute_invoked := true
      lib_minibatch := some minibatch_size
      lib_alphabet := some alphabet_size
      lib_options := some context4.options }

/-- Continuation of `APPLY_SPECIFIC(ctc_cost_cpu)` from the
`create_contiguous_input_lengths` call (line 142 of the C file) onwards,
after the contiguity stage produced `context1`, the raw pointer
`activations`, and `copy_made` (the contiguous copy, if one was made).
Each early `return 1` of the C code is one record below; note which of
them run `ctc_context_destroy` first and which do not. -/
def ctc_cost_rest (o : Oracle) (in_activations : NdArray)
    (in_labels : List (List Int)) (in_input_lengths : List Int)
    (out_costs0 out_gradients0 : Option NdArray)
    (context1 : CtcContext) (activations : Nat)
    (copy_made : Option NdArray) : CallResult :=
  match create_contiguous_input_lengths in_input_lengths o.input_lengths_ok with
  | none =>
    { ret := 1
      err := some (PyErr.MemoryError "Could not allocate storage for input lengths")
      out_costs := out_costs0
      out_gradients := out_gradients0
      context_at_return := some context1
      activations_ptr := some activations
      activations_copy_made := copy_made
      size_query_invoked := false
      compute_invoked := false
      lib_minibatch := none
      lib_alphabet := none
      lib_options := none }
  | some ils =>
  let context2 := { context1 with input_lengths := some ils }
  let flat := create_flat_labels in_labels context2.flat_labels
    context2.label_lengths o.flat_labels_ok o.label_lengths_ok
  let context3 := { context2 with flat_labels := flat.1, label_lengths := flat.2 }
  if flat.2.isNone || flat.1.isNone then
    { ret := 1
      err := some (PyErr.MemoryError "Could not allocate storage for labels and their lengths")
      out_costs := out_costs0
      out_gradients := out_gradients0
      context_at_return := some (ctc_context_destroy context3)
      activations_ptr := some activations
      activations_copy_made := copy_made
      size_query_invoked := false
      compute_invoked := false
      lib_minibatch := none
      lib_alphabet := none
      lib_options := none }
  else
  let minibatch_size : Nat := in_activations.dims.getD 1 0
  let alphabet_size : Nat := in_activations.dims.getD 2 0
  let cost_size : Nat := minibatch_size
  match ctc_costs_output o out_costs0 cost_size with
  | none =>
    { ret := 1
      err := some (PyErr.MemoryError "Could not allocate storage for CTC costs")
      out_costs := none
      out_gradients := out_gradients0
      context_at_return := some (ctc_context_destroy context3)
      activations_ptr := some activations
      activations_copy_made := copy_made
      size_query_invoked := false
      compute_invoked := false
      lib_minibatch := none
      lib_alphabet := none
      lib_options := none }
  | some costs_arr =>
  match ctc_grads_output o out_gradients0 in_activations.dims with
  | none =>
    { ret := 1
      err := some (PyErr.MemoryError "Could not allocate storage for CTC gradients!")
      out_costs := some costs_arr
      out_gradients := none
      context_at_return := some (ctc_context_destroy context3)
      activations_ptr := some activations
      activations_copy_made := copy_made
      size_query_invoked := false
      compute_invoked := false
      lib_minibatch := none
      lib_alphabet := none
      lib_options := none }
  | some grads_arr =>
  ctc_cost_tail o context3 activations copy_made costs_arr grads_arr
    minibatch_size alphabet_size

/-- `APPLY_SPECIFIC(ctc_cost_cpu)`: mallocs and initializes the context,
resolves the activations pointer (directly for a C-contiguous array, via
`PyArray_GETCONTIGUOUS` otherwise, raising `MemoryError` and returning 1
when that copy cannot be made), then continues in `ctc_cost_rest`. -/
def ctc_cost_cpu (o : Oracle) (in_activations : NdArray)
    (in_labels : List (List Int)) (in_input_lengths : List Int)
    (out_costs0 out_gradients0 : Option NdArray) : CallResult :=
  let context0 := ctc_context_init
    { options := o.init_options, workspace := none, input_lengths := none,
      flat_labels := none, label_lengths := none, activations_copy := none }
  if in_activations.contiguous then
    ctc_cost_rest o in_activations in_labels in_input_lengths
      out_costs0 out_gradients0 context0 in_activations.id none
  else
    match PyArray_GETCONTIGUOUS in_activations o.getcontiguous_ok
        o.getcontiguous_id with
    | some copy =>
      ctc_cost_rest o in_activations in_labels in_input_lengths
        out_costs0 out_gradients0
        { context0 with activations_copy := some copy } copy.id (some copy)
    | none =>
      { ret := 1
        err := some (PyErr.MemoryError "Could not create a contiguous copy of activations array.")
        out_costs := out_costs0
        out_gradients := out_gradients0
        context_at_return := some context0
        activations_ptr := none
        activations_copy_made := none
        size_query_invoked := false
        compute_invoked := false
        lib_minibatch := none
        lib_alphabet := none
        lib_options := none }

/-- Spec-side reuse predicate for the costs output, in the claim's words:
reused exactly when present, 1-dimensional, and of length `cost_size`. -/
def spec_costs_reuse (cost_size : Nat) (oc : Option NdArray) : Bool :=
  match oc with
  | none => false
  | some c => decide (c.dims.length = 1 ∧ c.dims.getD 0 0 = cost_size)

/-- Spec-side reuse predicate for the gradients output, in the claim's
words: reused exactly when present, 3-dimensional, and of the activations'
shape. -/
def spec_grads_reuse (adims : List Nat) (og : Option NdArray) : Bool :=
  match og with
  | none => false
  | some g => decide (g.dims.length = 3 ∧ g.dims = adims)

/-- A concrete oracle on which every external call succeeds; the
`init_options` field is a representative of the garbage `malloc` can leave
in `context->options` (location 1 = GPU, 7 threads). -/
def demoOracle : Oracle :=
  { init_options := { loc := 1, num_threads := 7 }
    getcontiguous_ok := true
    getcontiguous_id := 100
    input_lengths_ok := true
    flat_labels_ok := true
    label_lengths_ok := true
    costs_ok := true
    costs_id := 101
    gradients_ok := true
    gradients_id := 102
    ws_status := 0
    ws_size := 64
    workspace_ok := true
    compute_status := 0
    statusString := fun _ => "unknown error" }

/-- `demoOracle`, except that the external compute call reports status 2. -/
def demoComputeFailOracle : Oracle :=
  { demoOracle with compute_status := 2 }

/-- A concrete C-contiguous [4, 2, 3] float32 activations tensor. -/
def demoActs : NdArray :=
  { id := 1, dims := [4, 2, 3], dtype := DType.float32,
    contiguous := true, data := List.replicate 24 0 }

/-- A concrete 2 x 2 label matrix with one padding entry. -/
def demoLabels : List (List Int) := [[1, -1], [2, 3]]

/-- A concrete input-lengths vector for a batch of 2. -/
def demoLens : List Int := [4, 4]

/-- `demoActs` with a different identity and non-contiguous layout. -/
def demoActsNC : NdArray :=
  { id := 2, dims := [4, 2, 3], dtype := DType.float32,
    contiguous := false, data := List.replicate 24 0 }

/-- `demoOracle`, except that the contiguous-copy allocation fails. -/
def demoCopyFailOracle : Oracle :=
  { demoOracle with getcontiguous_ok := false }

/-- `demoOracle`, except that the workspace malloc fails. -/
def demoWorkspaceFailOracle : Oracle :=
  { demoOracle with workspace_ok := false }

/-- `demoOracle`, except that the size-query call reports status 3. -/
def demoSizeQueryFailOracle : Oracle :=
  { demoOracle with ws_status := 3 }

/-- `demoOracle`, except that the input-lengths malloc fails. -/
def demoInputFailOracle : Oracle :=
  { demoOracle with input_lengths_ok := false }

/-- `demoOracle`, except that the flat-labels malloc fails. -/
def demoLabelsFailOracle : Oracle :=
  { demoOracle with flat_labels_ok := false }

/-- `demoOracle`, except that the costs allocation fails. -/
def demoCostsFailOracle : Oracle :=
  { demoOracle with costs_ok := false }

/-- `demoOracle`, except that the gradients allocation fails. -/
def demoGradsFailOracle : Oracle :=
  { demoOracle with gradients_ok := false }

/-- A caller-provided costs output that already has the required shape. -/
def demoCosts : NdArray :=
  { id := 7, dims := [2], dtype := DType.float32,
    contiguous := true, data := [0, 0] }

/-- A caller-provided gradients output that already has the required
shape. -/
def demoGrads : NdArray :=
  { id := 8, dims := [4, 2, 3], dtype := DType.float32,
    contiguous := true, data := List.replicate 24 0 }

theorem ctc_row_loop_spec (row : List Int) (acc : List Int) (n : Int) :
    ctc_row_loop row acc n =
      (acc ++ row.filter (fun v => !spec_is_padding v),
       n + (spec_row_count row : Int)) := by
  induction row generalizing acc n with
  | nil => simp [ctc_row_loop, spec_row_count]
  | cons label rest ih =>
    by_cases h : label ≥ 0
    · have hp : (!spec_is_padding label) = true := by
        simp [spec_is_padding]; omega
      simp [ctc_row_loop, h, ih, hp, spec_row_count, List.filter]
      omega
    · have hp : (!spec_is_padding label) = false := by
        simp [spec_is_padding]; omega
      have hd : decide (0 ≤ label) = false := by simp; omega
      simp [ctc_row_loop, h, ih, hp, spec_row_count, List.filter, hd]

theorem ctc_flat_loop_spec (m : List (List Int)) (facc lacc : List Int) :
    ctc_flat_loop m facc lacc =
      (facc ++ spec_flat_labels m,
       lacc ++ m.map (fun row => (spec_row_count row : Int))) := by
  induction m generalizing facc lacc with
  | nil => simp [ctc_flat_loop, spec_flat_labels]
  | cons row rest ih =>
    simp [ctc_flat_loop, ctc_row_loop_spec, ih, spec_flat_labels]

theorem create_flat_labels_ok (m : List (List Int))
    (f0 l0 : Option (List Int)) :
    create_flat_labels m f0 l0 true true =
      (some (spec_flat_labels m),
       some (m.map fun row => (spec_row_count row : Int))) := by
  simp [create_flat_labels, ctc_flat_loop_spec]

theorem filter_nonneg_eq (row : List Int) :
    row.filter (fun v => !spec_is_padding v) =
      row.filter (fun v => decide (0 ≤ v)) := by
  congr 1
  funext v
  by_cases h : v < 0
  · have h2 : ¬(0 ≤ v) := by omega
    simp [spec_is_padding, h, h2]
  · have h2 : 0 ≤ v := by omega
    simp [spec_is_padding, h, h2]

theorem spec_flat_labels_length (m : List (List Int)) :
    (spec_flat_labels m).length = spec_nonneg_count m := by
  induction m with
  | nil => simp [spec_flat_labels, spec_nonneg_count]
  | cons row rest ih =>
    have hrow : (row.filter (fun v => !spec_is_padding v)).length
        = spec_row_count row := by
      rw [filter_nonneg_eq]; simp [spec_row_count]
    simp only [spec_flat_labels, List.map_cons, List.flatten_cons,
      List.length_append, spec_nonneg_count, List.sum_cons] at ih ⊢
    rw [hrow, ih]

/-- C3: for every label matrix, the flattening step emits exactly the
non-negative entries in row-major left-to-right order, a per-row length
array counting each row's non-negative entries, and a flat buffer whose
length is the total non-negative count; the padding predicate is exactly
`value < 0`. -/
theorem C3_flatten_labels_correct (m : List (List Int)) :
    create_flat_labels m none none true true =
      (some (spec_flat_labels m),
       some (m.map fun row => (spec_row_count row : Int))) ∧
    (spec_flat_labels m).length = spec_nonneg_count m := by
  exact ⟨create_flat_labels_ok m none none, spec_flat_labels_length m⟩

/-- C10: the label-flattening helper is atomic in its out-parameters: with
both out-parameters NULL on entry (as at its only call site, right after
`ctc_context_init`), after it returns either both are fresh buffers or both
are NULL, and in particular a failed label-lengths malloc after a
successful flat-labels malloc frees the flat buffer and resets its pointer
to NULL. -/
theorem C10_flat_labels_atomic (m : List (List Int))
    (alloc_flat_ok alloc_lengths_ok : Bool) :
    ((create_flat_labels m none none alloc_flat_ok alloc_lengths_ok).1.isSome ∧
     (create_flat_labels m none none alloc_flat_ok alloc_lengths_ok).2.isSome ∨
     (create_flat_labels m none none alloc_flat_ok alloc_lengths_ok).1 = none ∧
     (create_flat_labels m none none alloc_flat_ok alloc_lengths_ok).2 = none) ∧
    (alloc_flat_ok = true → alloc_lengths_ok = false →
      create_flat_labels m none none alloc_flat_ok alloc_lengths_ok =
        (none, none)) := by
  constructor
  · cases alloc_flat_ok <;> cases alloc_lengths_ok <;>
      simp [create_flat_labels]
  · intro hf hl
    subst hf; subst hl
    simp [create_flat_labels]

/-- Witness for C10 at a concrete matrix: flat-labels malloc succeeds, the
label-lengths malloc fails, and both out-parameters are NULL afterwards. -/
theorem C10_flat_labels_atomic_witness :
    create_flat_labels [[1, -1], [2, 3]] none none true false =
      (none, none) :=
  (C10_flat_labels_atomic [[1, -1], [2, 3]] true false).2 rfl rfl

/-- C2: REFUTED by the code. `ctc_context_init` configures only a local
copy of the options struct and never writes it back, so the options passed
to the external library keep whatever `malloc` left in `context->options`.
At a concrete invocation whose malloc garbage is location 1 with 7 threads,
the options handed to the size-query and compute calls are that garbage,
not CPU with 1 thread. -/
theorem C2_library_options_not_initialized :
    (ctc_context_init
        { options := { loc := 1, num_threads := 7 }, workspace := none,
          input_lengths := none, flat_labels := none, label_lengths := none,
          activations_copy := none }).options =
      { loc := 1, num_threads := 7 } ∧
    (ctc_cost_cpu demoOracle demoActs demoLabels demoLens none none).lib_options =
      some { loc := 1, num_threads := 7 } ∧
    (ctc_cost_cpu demoOracle demoActs demoLabels demoLens none none).lib_options ≠
      some { loc := CTC_CPU, num_threads := 1 } := by
  refine ⟨rfl, ?_, ?_⟩ <;> decide

/-- C1: REFUTED by the code. When the external compute call reports a
non-success status, `ctc_cost_cpu` returns 1 without calling
`ctc_context_destroy`: at the return statement the context still owns the
workspace, the input-lengths buffer, the flat-labels buffer and the
label-lengths buffer — they are leaked, not freed. -/
theorem C1_compute_error_leaks_owned_buffers :
    (ctc_cost_cpu demoComputeFailOracle demoActs demoLabels demoLens
        none none).ret = 1 ∧
    (ctc_cost_cpu demoComputeFailOracle demoActs demoLabels demoLens
        none none).compute_invoked = true ∧
    (ctc_cost_cpu demoComputeFailOracle demoActs demoLabels demoLens
        none none).context_at_return.map CtcContext.workspace =
      some (some 64) ∧
    (ctc_cost_cpu demoComputeFailOracle demoActs demoLabels demoLens
        none none).context_at_return.map CtcContext.input_lengths =
      some (some [4, 4]) ∧
    (ctc_cost_cpu demoComputeFailOracle demoActs demoLabels demoLens
        none none).context_at_return.map CtcContext.flat_labels =
      some (some [1, 2, 3]) ∧
    (ctc_cost_cpu demoComputeFailOracle demoActs demoLabels demoLens
        none none).context_at_return.map CtcContext.label_lengths =
      some (some [1, 2]) := by
  refine ⟨?_, ?_, ?_, ?_, ?_, ?_⟩ <;> decide

theorem list_eq_of_len3 (l : List Nat) (T B A : Nat) (hl : l.length = 3)
    (h0 : l.getD 0 0 = T) (h1 : l.getD 1 0 = B) (h2 : l.getD 2 0 = A) :
    l = [T, B, A] := by
  match l with
  | [] => simp at hl
  | [_] => simp at hl
  | [_, _] => simp at hl
  | [a, b, c] =>
    simp [List.getD] at h0 h1 h2
    simp [h0, h1, h2]
  | a :: b :: c :: d :: rest => simp at hl


theorem spec_costs_reuse_dims (cs : Nat) (c : NdArray)
    (h : spec_costs_reuse cs (some c) = true) : c.dims = [cs] := by
  simp only [spec_costs_reuse, decide_eq_true_eq] at h
  obtain ⟨h1, h2⟩ := h
  match hd : c.dims with
  | [] => rw [hd] at h1; simp at h1
  | [d] => rw [hd] at h2; simpa [List.getD] using h2
  | d :: e :: rest => rw [hd] at h1; simp at h1

theorem ctc_costs_output_reuse (o : Oracle) (oc : Option NdArray)
    (cs : Nat) (h : spec_costs_reuse cs oc = true) :
    ctc_costs_output o oc cs = oc := by
  match oc with
  | none => simp [spec_costs_reuse] at h
  | some c =>
    have hd := spec_costs_reuse_dims cs c h
    simp only [ctc_costs_output]
    simp only [hd]
    simp [List.getD]

theorem ctc_costs_output_realloc (o : Oracle) (oc : Option NdArray)
    (cs : Nat) (h : spec_costs_reuse cs oc = false) :
    ctc_costs_output o oc cs =
      PyArray_ZEROS [cs] DType.float32 o.costs_ok o.costs_id := by
  match oc with
  | none => simp [ctc_costs_output]
  | some c =>
    simp only [spec_costs_reuse, decide_eq_false_iff_not] at h
    have hcond : ((c.dims.length != 1) || (c.dims.getD 0 0 != cs)) = true := by
      rw [Bool.or_eq_true, bne_iff_ne, bne_iff_ne]
      by_cases h1 : c.dims.length = 1
      · by_cases h2 : c.dims.getD 0 0 = cs
        · exact absurd ⟨h1, h2⟩ h
        · exact Or.inr h2
      · exact Or.inl h1
    simp only [ctc_costs_output]
    simp only [hcond]
    simp

theorem spec_grads_reuse_dims (adims : List Nat) (g : NdArray)
    (h : spec_grads_reuse adims (some g) = true) : g.dims = adims := by
  simp only [spec_grads_reuse, decide_eq_true_eq] at h
  exact h.2

theorem ctc_grads_output_reuse (o : Oracle) (og : Option NdArray)
    (T B A : Nat) (h : spec_grads_reuse [T, B, A] og = true) :
    ctc_grads_output o og [T, B, A] = og := by
  match og with
  | none => simp [spec_grads_reuse] at h
  | some g =>
    have hd := spec_grads_reuse_dims [T, B, A] g h
    simp only [ctc_grads_output]
    simp only [hd]
    simp [List.getD]

theorem ctc_grads_output_realloc (o : Oracle) (og : Option NdArray)
    (T B A : Nat) (h : spec_grads_reuse [T, B, A] og = false) :
    ctc_grads_output o og [T, B, A] =
      PyArray_ZEROS [T, B, A] DType.float32 o.gradients_ok o.gradients_id := by
  match og with
  | none => simp [ctc_grads_output]
  | some g =>
    simp only [spec_grads_reuse, decide_eq_false_iff_not] at h
    have hcond : ((g.dims.length != 3)
        || (g.dims.getD 0 0 != ([T, B, A] : List Nat).getD 0 0)
        || (g.dims.getD 1 0 != ([T, B, A] : List Nat).getD 1 0)
        || (g.dims.getD 2 0 != ([T, B, A] : List Nat).getD 2 0)) = true := by
      rw [Bool.or_eq_true, Bool.or_eq_true, Bool.or_eq_true,
        bne_iff_ne, bne_iff_ne, bne_iff_ne, bne_iff_ne]
      by_cases h3 : g.dims.length = 3
      · by_cases e0 : g.dims.getD 0 0 = ([T, B, A] : List Nat).getD 0 0
        · by_cases e1 : g.dims.getD 1 0 = ([T, B, A] : List Nat).getD 1 0
          · by_cases e2 : g.dims.getD 2 0 = ([T, B, A] : List Nat).getD 2 0
            · exfalso
              have hg : g.dims = [T, B, A] := by
                refine list_eq_of_len3 _ _ _ _ h3 ?_ ?_ ?_
                · simpa [List.getD] using e0
                · simpa [List.getD] using e1
                · simpa [List.getD] using e2
              exact h ⟨h3, hg⟩
            · exact Or.inr e2
          · exact Or.inl (Or.inr e1)
        · exact Or.inl (Or.inl (Or.inr e0))
      · exact Or.inl (Or.inl (Or.inl h3))
    simp only [ctc_grads_output]
    simp only [hcond]
    simp

theorem ctc_cost_tail_ws_fail (o : Oracle) (ctx : CtcContext) (act : Nat)
    (cp : Option NdArray) (ca ga : NdArray) (mb ab : Nat)
    (h : o.ws_status ≠ CTC_STATUS_SUCCESS) :
    ctc_cost_tail o ctx act cp ca ga mb ab =
      { ret := 1
        err := some (PyErr.RuntimeError
          ("Failed to obtain CTC workspace size!" ++
            " | CTC library error message: " ++ o.statusString o.ws_status))
        out_costs := some ca
        out_gradients := some ga
        context_at_return := some ctx
        activations_ptr := some act
        activations_copy_made := cp
        size_query_invoked := true
        compute_invoked := false
        lib_minibatch := some mb
        lib_alphabet := some ab
        lib_options := some ctx.options } := by
  simp [ctc_cost_tail, ctc_check_result, h]

theorem ctc_cost_tail_workspace_fail (o : Oracle) (ctx : CtcContext)
    (act : Nat) (cp : Option NdArray) (ca ga : NdArray) (mb ab : Nat)
    (h : o.ws_status = CTC_STATUS_SUCCESS) (hw : o.workspace_ok = false) :
    ctc_cost_tail o ctx act cp ca ga mb ab =
      { ret := 1
        err := some (PyErr.MemoryError
          "Failed to allocate memory for CTC workspace!")
        out_costs := some ca
        out_gradients := some ga
        context_at_return := some (ctc_context_destroy ctx)
        activations_ptr := some act
        activations_copy_made := cp
        size_query_invoked := true
        compute_invoked := false
        lib_minibatch := some mb
        lib_alphabet := some ab
        lib_options := some ctx.options } := by
  simp [ctc_cost_tail, ctc_check_result, h, hw]

theorem ctc_cost_tail_compute_fail (o : Oracle) (ctx : CtcContext)
    (act : Nat) (cp : Option NdArray) (ca ga : NdArray) (mb ab : Nat)
    (h : o.ws_status = CTC_STATUS_SUCCESS) (hw : o.workspace_ok = true)
    (hcmp : o.compute_status ≠ CTC_STATUS_SUCCESS) :
    ctc_cost_tail o ctx act cp ca ga mb ab =
      { ret := 1
        err := some (PyErr.RuntimeError
          ("Failed to compute CTC loss function!" ++
            " | CTC library error message: " ++
            o.statusString o.compute_status))
        out_costs := some ca
        out_gradients := some ga
        context_at_return := some { ctx with workspace := some o.ws_size }
        activations_ptr := some act
        activations_copy_made := cp
        size_query_invoked := true
        compute_invoked := true
        lib_minibatch := some mb
        lib_alphabet := some ab
        lib_options := some ctx.options } := by
  simp [ctc_cost_tail, ctc_check_result, h, hw, hcmp]

theorem ctc_cost_tail_success (o : Oracle) (ctx : CtcContext) (act : Nat)
    (cp : Option NdArray) (ca ga : NdArray) (mb ab : Nat)
    (h : o.ws_status = CTC_STATUS_SUCCESS) (hw : o.workspace_ok = true)
    (hcmp : o.compute_status = CTC_STATUS_SUCCESS) :
    ctc_cost_tail o ctx act cp ca ga mb ab =
      { ret := 0
        err := none
        out_costs := some ca
        out_gradients := some ga
        context_at_return := none
        activations_ptr := some act
        activations_copy_made := cp
        size_query_invoked := true
        compute_invoked := true
        lib_minibatch := some mb
        lib_alphabet := some ab
        lib_options := some ctx.options } := by
  simp [ctc_cost_tail, ctc_check_result, h, hw, hcmp]

theorem ctc_cost_rest_eq_tail (o : Oracle) (a : NdArray)
    (l : List (List Int)) (il : List Int) (oc og : Option NdArray)
    (ctx : CtcContext) (act : Nat) (cp : Option NdArray) (ca ga : NdArray)
    (hin : o.input_lengths_ok = true)
    (hfl : o.flat_labels_ok = true)
    (hll : o.label_lengths_ok = true)
    (hco : ctc_costs_output o oc (a.dims.getD 1 0) = some ca)
    (hgo : ctc_grads_output o og a.dims = some ga) :
    ctc_cost_rest o a l il oc og ctx act cp =
      ctc_cost_tail o
        { ctx with
          input_lengths := some il
          flat_labels := some (spec_flat_labels l)
          label_lengths := some (l.map fun row => (spec_row_count row : Int)) }
        act cp ca ga (a.dims.getD 1 0) (a.dims.getD 2 0) := by
  unfold ctc_cost_rest
  simp only [create_contiguous_input_lengths, hin, if_true,
    create_flat_labels_ok, hfl, hll, hco, hgo, Option.isNone_some,
    Bool.or_self, Bool.false_eq_true, if_false]

theorem ctc_cost_cpu_contiguous (o : Oracle) (a : NdArray)
    (l : List (List Int)) (il : List Int) (oc og : Option NdArray)
    (hc : a.contiguous = true) :
    ctc_cost_cpu o a l il oc og =
      ctc_cost_rest o a l il oc og
        { options := o.init_options, workspace := none,
          input_lengths := none, flat_labels := none, label_lengths := none,
          activations_copy := none }
        a.id none := by
  simp [ctc_cost_cpu, hc, ctc_context_init]

theorem ctc_cost_cpu_noncontiguous (o : Oracle) (a : NdArray)
    (l : List (List Int)) (il : List Int) (oc og : Option NdArray)
    (hc : a.contiguous = false) (ho : o.getcontiguous_ok = true) :
    ctc_cost_cpu o a l il oc og =
      ctc_cost_rest o a l il oc og
        { options := o.init_options, workspace := none,
          input_lengths := none, flat_labels := none, label_lengths := none,
          activations_copy :=
            some { a with id := o.getcontiguous_id, contiguous := true } }
        o.getcontiguous_id
        (some { a with id := o.getcontiguous_id, contiguous := true }) := by
  simp [ctc_cost_cpu, hc, PyArray_GETCONTIGUOUS, ho, ctc_context_init]

theorem ctc_cost_cpu_copy_fail (o : Oracle) (a : NdArray)
    (l : List (List Int)) (il : List Int) (oc og : Option NdArray)
    (hc : a.contiguous = false) (ho : o.getcontiguous_ok = false) :
    ctc_cost_cpu o a l il oc og =
      { ret := 1
        err := some (PyErr.MemoryError
          "Could not create a contiguous copy of activations array.")
        out_costs := oc
        out_gradients := og
        context_at_return := some
          { options := o.init_options, workspace := none,
            input_lengths := none, flat_labels := none, label_lengths := none,
            activations_copy := none }
        activations_ptr := none
        activations_copy_made := none
        size_query_invoked := false
        compute_invoked := false
        lib_minibatch := none
        lib_alphabet := none
        lib_options := none } := by
  simp [ctc_cost_cpu, hc, PyArray_GETCONTIGUOUS, ho, ctc_context_init]

theorem ctc_cost_rest_act_fields (o : Oracle) (a : NdArray)
    (l : List (List Int)) (il : List Int) (oc og : Option NdArray)
    (ctx : CtcContext) (act : Nat) (cp : Option NdArray) :
    (ctc_cost_rest o a l il oc og ctx act cp).activations_ptr = some act ∧
    (ctc_cost_rest o a l il oc og ctx act cp).activations_copy_made = cp := by
  simp only [ctc_cost_rest, ctc_cost_tail]
  constructor <;>
  · split
    · rfl
    · split
      · rfl
      · split
        · rfl
        · split
          · rfl
          · split
            · rfl
            · split
              · rfl
              · split <;> rfl

theorem ctc_cost_tail_outputs (o : Oracle) (ctx : CtcContext) (act : Nat)
    (cp : Option NdArray) (ca ga : NdArray) (mb ab : Nat) :
    (ctc_cost_tail o ctx act cp ca ga mb ab).out_costs = some ca ∧
    (ctc_cost_tail o ctx act cp ca ga mb ab).out_gradients = some ga ∧
    (ctc_cost_tail o ctx act cp ca ga mb ab).lib_minibatch = some mb ∧
    (ctc_cost_tail o ctx act cp ca ga mb ab).lib_alphabet = some ab ∧
    (ctc_cost_tail o ctx act cp ca ga mb ab).size_query_invoked = true ∧
    (ctc_cost_tail o ctx act cp ca ga mb ab).lib_options = some ctx.options := by
  simp only [ctc_cost_tail]
  refine ⟨?_, ?_, ?_, ?_, ?_, ?_⟩ <;>
  · split
    · rfl
    · split
      · rfl
      · split <;> rfl

theorem ctc_cost_cpu_eq_rest_exists (o : Oracle) (a : NdArray)
    (l : List (List Int)) (il : List Int) (oc og : Option NdArray)
    (hpath : a.contiguous = true ∨ o.getcontiguous_ok = true) :
    ∃ ctx act cp,
      ctc_cost_cpu o a l il oc og = ctc_cost_rest o a l il oc og ctx act cp := by
  cases hc : a.contiguous
  · rcases hpath with h | h
    · rw [hc] at h; exact absurd h (by simp)
    · exact ⟨_, _, _, ctc_cost_cpu_noncontiguous o a l il oc og hc h⟩
  · exact ⟨_, _, _, ctc_cost_cpu_contiguous o a l il oc og hc⟩

theorem spec_costs_reuse_some (B : Nat) (oc : Option NdArray)
    (h : spec_costs_reuse B oc = true) : ∃ c, oc = some c := by
  cases oc with
  | none => simp [spec_costs_reuse] at h
  | some c => exact ⟨c, rfl⟩

theorem spec_grads_reuse_some (adims : List Nat) (og : Option NdArray)
    (h : spec_grads_reuse adims og = true) : ∃ g, og = some g := by
  cases og with
  | none => simp [spec_grads_reuse] at h
  | some g => exact ⟨g, rfl⟩

theorem spec_costs_reuse_false_dims (B : Nat) (c : NdArray)
    (h : spec_costs_reuse B (some c) = false) : c.dims ≠ [B] := by
  intro hd
  have ht : spec_costs_reuse B (some c) = true := by
    simp [spec_costs_reuse, hd, List.getD]
  rw [ht] at h
  exact Bool.noConfusion h

theorem spec_grads_reuse_false_dims (T B A : Nat) (g : NdArray)
    (h : spec_grads_reuse [T, B, A] (some g) = false) :
    g.dims ≠ [T, B, A] := by
  intro hd
  have ht : spec_grads_reuse [T, B, A] (some g) = true := by
    simp [spec_grads_reuse, hd]
  rw [ht] at h
  exact Bool.noConfusion h

theorem ctc_costs_output_cases (o : Oracle) (oc : Option NdArray) (B : Nat)
    (hcok : o.costs_ok = true) :
    (spec_costs_reuse B oc = true ∧ ctc_costs_output o oc B = oc) ∨
    (spec_costs_reuse B oc = false ∧
      ctc_costs_output o oc B =
        some { id := o.costs_id, dims := [B], dtype := DType.float32,
               contiguous := true, data := List.replicate B 0 }) := by
  by_cases h : spec_costs_reuse B oc = true
  · exact Or.inl ⟨h, ctc_costs_output_reuse o oc B h⟩
  · have h' : spec_costs_reuse B oc = false := Bool.eq_false_iff.mpr h
    refine Or.inr ⟨h', ?_⟩
    rw [ctc_costs_output_realloc o oc B h']
    simp [PyArray_ZEROS, hcok]

theorem ctc_grads_output_cases (o : Oracle) (og : Option NdArray)
    (T B A : Nat) (hgok : o.gradients_ok = true) :
    (spec_grads_reuse [T, B, A] og = true ∧
      ctc_grads_output o og [T, B, A] = og) ∨
    (spec_grads_reuse [T, B, A] og = false ∧
      ctc_grads_output o og [T, B, A] =
        some { id := o.gradients_id, dims := [T, B, A],
               dtype := DType.float32, contiguous := true,
               data := List.replicate (T * (B * A)) 0 }) := by
  by_cases h : spec_grads_reuse [T, B, A] og = true
  · exact Or.inl ⟨h, ctc_grads_output_reuse o og T B A h⟩
  · have h' : spec_grads_reuse [T, B, A] og = false := Bool.eq_false_iff.mpr h
    refine Or.inr ⟨h', ?_⟩
    rw [ctc_grads_output_realloc o og T B A h']
    simp [PyArray_ZEROS, hgok]

/-- C4: if the activations array is already C-contiguous, no defensive copy
is made and the library is pointed at the caller's own array; if it is
non-contiguous, an owned contiguous copy with the same dimensions and
element values is made and the library is pointed at the copy; if that copy
cannot be allocated, the call fails with a memory error. -/
theorem C4_contiguity_copy_policy (o : Oracle) (a : NdArray)
    (l : List (List Int)) (il : List Int) (oc og : Option NdArray) :
    (a.contiguous = true →
      (ctc_cost_cpu o a l il oc og).activations_ptr = some a.id ∧
      (ctc_cost_cpu o a l il oc og).activations_copy_made = none) ∧
    (a.contiguous = false → o.getcontiguous_ok = true →
      (ctc_cost_cpu o a l il oc og).activations_ptr =
        some o.getcontiguous_id ∧
      (ctc_cost_cpu o a l il oc og).activations_copy_made =
        some { a with id := o.getcontiguous_id, contiguous := true } ∧
      ({ a with id := o.getcontiguous_id, contiguous := true } : NdArray).data
        = a.data ∧
      ({ a with id := o.getcontiguous_id, contiguous := true } : NdArray).dims
        = a.dims) ∧
    (a.contiguous = false → o.getcontiguous_ok = false →
      (ctc_cost_cpu o a l il oc og).ret = 1 ∧
      (ctc_cost_cpu o a l il oc og).err =
        some (PyErr.MemoryError
          "Could not create a contiguous copy of activations array.")) := by
  refine ⟨?_, ?_, ?_⟩
  · intro hc
    rw [ctc_cost_cpu_contiguous o a l il oc og hc]
    exact ⟨(ctc_cost_rest_act_fields o a l il oc og _ a.id none).1,
      (ctc_cost_rest_act_fields o a l il oc og _ a.id none).2⟩
  · intro hc ho
    rw [ctc_cost_cpu_noncontiguous o a l il oc og hc ho]
    exact ⟨(ctc_cost_rest_act_fields o a l il oc og _ _ _).1,
      (ctc_cost_rest_act_fields o a l il oc og _ _ _).2, rfl, rfl⟩
  · intro hc ho
    rw [ctc_cost_cpu_copy_fail o a l il oc og hc ho]
    exact ⟨rfl, rfl⟩

/-- Witness for C4 at concrete inputs: a contiguous array is used in place
with no copy; a non-contiguous array is replaced by its contiguous copy;
a failed copy raises the memory error. -/
theorem C4_contiguity_copy_policy_witness :
    ((ctc_cost_cpu demoOracle demoActs demoLabels demoLens none none).activations_ptr
        = some demoActs.id ∧
     (ctc_cost_cpu demoOracle demoActs demoLabels demoLens none none).activations_copy_made
        = none) ∧
    (ctc_cost_cpu demoOracle demoActsNC demoLabels demoLens none none).activations_copy_made
        = some
          { demoActsNC with
            id := demoOracle.getcontiguous_id
            contiguous := true } ∧
    (ctc_cost_cpu demoCopyFailOracle demoActsNC demoLabels demoLens none none).ret
        = 1 :=
  ⟨(C4_contiguity_copy_policy demoOracle demoActs demoLabels demoLens
      none none).1 rfl,
   ((C4_contiguity_copy_policy demoOracle demoActsNC demoLabels demoLens
      none none).2.1 rfl rfl).2.1,
   ((C4_contiguity_copy_policy demoCopyFailOracle demoActsNC demoLabels
      demoLens none none).2.2 rfl rfl).1⟩

theorem ne_of_costs_realloc (B : Nat) (oc : Option NdArray) (z : NdArray)
    (hz : z.dims = [B]) (h : spec_costs_reuse B oc = false) :
    some z ≠ oc := by
  cases oc with
  | none => simp
  | some c =>
    intro hEqq
    have hzc : z = c := Option.some.inj hEqq
    exact spec_costs_reuse_false_dims B c h (by rw [← hzc, hz])

theorem ne_of_grads_realloc (T B A : Nat) (og : Option NdArray) (z : NdArray)
    (hz : z.dims = [T, B, A]) (h : spec_grads_reuse [T, B, A] og = false) :
    some z ≠ og := by
  cases og with
  | none => simp
  | some g =>
    intro hEqq
    have hzg : z = g := Option.some.inj hEqq
    exact spec_grads_reuse_false_dims T B A g h (by rw [← hzg, hz])

/-- C5: when the allocation of whichever fresh outputs are needed succeeds,
the caller-provided costs output is kept (same object) exactly when it is
present, 1-D, and of length equal to the batch size, and the gradients
output is kept exactly when it is present, 3-D, and of the activations'
shape; in every other case the handle is replaced by a distinct, freshly
allocated zero-initialized float32 array of the required shape. -/
theorem C5_output_reuse_policy (o : Oracle) (a : NdArray) (T B A : Nat)
    (l : List (List Int)) (il : List Int) (oc og : Option NdArray)
    (hdims : a.dims = [T, B, A])
    (hpath : a.contiguous = true ∨ o.getcontiguous_ok = true)
    (hin : o.input_lengths_ok = true)
    (hfl : o.flat_labels_ok = true)
    (hll : o.label_lengths_ok = true)
    (hcok : o.costs_ok = true)
    (hgok : o.gradients_ok = true) :
    (spec_costs_reuse B oc = true →
      (ctc_cost_cpu o a l il oc og).out_costs = oc) ∧
    (spec_costs_reuse B oc = false →
      (ctc_cost_cpu o a l il oc og).out_costs =
        some { id := o.costs_id, dims := [B], dtype := DType.float32,
               contiguous := true, data := List.replicate B 0 } ∧
      (ctc_cost_cpu o a l il oc og).out_costs ≠ oc) ∧
    (spec_grads_reuse [T, B, A] og = true →
      (ctc_cost_cpu o a l il oc og).out_gradients = og) ∧
    (spec_grads_reuse [T, B, A] og = false →
      (ctc_cost_cpu o a l il oc og).out_gradients =
        some { id := o.gradients_id, dims := [T, B, A],
               dtype := DType.float32, contiguous := true,
               data := List.replicate (T * (B * A)) 0 } ∧
      (ctc_cost_cpu o a l il oc og).out_gradients ≠ og) := by
  obtain ⟨ctx, act, cp, heq⟩ := ctc_cost_cpu_eq_rest_exists o a l il oc og hpath
  have hB : a.dims.getD 1 0 = B := by rw [hdims]; rfl
  obtain ⟨ca, hco', hcaSpec⟩ :
      ∃ ca, ctc_costs_output o oc (a.dims.getD 1 0) = some ca ∧
        ((spec_costs_reuse B oc = true ∧ oc = some ca) ∨
         (spec_costs_reuse B oc = false ∧
           ca = { id := o.costs_id, dims := [B], dtype := DType.float32,
                  contiguous := true, data := List.replicate B 0 })) := by
    rcases ctc_costs_output_cases o oc B hcok with ⟨hcr, hco⟩ | ⟨hcr, hco⟩
    · obtain ⟨c, hocs⟩ := spec_costs_reuse_some B oc hcr
      exact ⟨c, by rw [hB, hco, hocs], Or.inl ⟨hcr, hocs⟩⟩
    · exact ⟨_, by rw [hB, hco], Or.inr ⟨hcr, rfl⟩⟩
  obtain ⟨ga, hgo', hgaSpec⟩ :
      ∃ ga, ctc_grads_output o og a.dims = some ga ∧
        ((spec_grads_reuse [T, B, A] og = true ∧ og = some ga) ∨
         (spec_grads_reuse [T, B, A] og = false ∧
           ga = { id := o.gradients_id, dims := [T, B, A],
                  dtype := DType.float32, contiguous := true,
                  data := List.replicate (T * (B * A)) 0 })) := by
    rcases ctc_grads_output_cases o og T B A hgok with ⟨hgr, hgo⟩ | ⟨hgr, hgo⟩
    · obtain ⟨g, hogs⟩ := spec_grads_reuse_some [T, B, A] og hgr
      exact ⟨g, by rw [hdims, hgo, hogs], Or.inl ⟨hgr, hogs⟩⟩
    · exact ⟨_, by rw [hdims, hgo], Or.inr ⟨hgr, rfl⟩⟩
  have hr := heq.trans (ctc_cost_rest_eq_tail o a l il oc og ctx act cp ca ga
    hin hfl hll hco' hgo')
  have houts := ctc_cost_tail_outputs o
    { ctx with
      input_lengths := some il
      flat_labels := some (spec_flat_labels l)
      label_lengths := some (l.map fun row => (spec_row_count row : Int)) }
    act cp ca ga (a.dims.getD 1 0) (a.dims.getD 2 0)
  have hrc : (ctc_cost_cpu o a l il oc og).out_costs = some ca := by
    rw [hr]; exact houts.1
  have hrg : (ctc_cost_cpu o a l il oc og).out_gradients = some ga := by
    rw [hr]; exact houts.2.1
  refine ⟨?_, ?_, ?_, ?_⟩
  · intro ht
    rcases hcaSpec with ⟨_, hocs⟩ | ⟨hcr, _⟩
    · rw [hrc]; exact hocs.symm
    · rw [ht] at hcr; exact Bool.noConfusion hcr
  · intro hf
    rcases hcaSpec with ⟨hcr, _⟩ | ⟨_, hval⟩
    · rw [hf] at hcr; exact Bool.noConfusion hcr
    · refine ⟨by rw [hrc, hval], ?_⟩
      rw [hrc]
      exact hval ▸ ne_of_costs_realloc B oc ca (by rw [hval]) hf
  · intro ht
    rcases hgaSpec with ⟨_, hogs⟩ | ⟨hgr, _⟩
    · rw [hrg]; exact hogs.symm
    · rw [ht] at hgr; exact Bool.noConfusion hgr
  · intro hf
    rcases hgaSpec with ⟨hgr, _⟩ | ⟨_, hval⟩
    · rw [hf] at hgr; exact Bool.noConfusion hgr
    · refine ⟨by rw [hrg, hval], ?_⟩
      rw [hrg]
      exact hval ▸ ne_of_grads_realloc T B A og ga (by rw [hval]) hf

/-- Witness for C5 at concrete inputs: correctly shaped caller outputs are
kept; absent outputs are replaced by fresh zero-initialized float32 arrays
of the required shapes. -/
theorem C5_output_reuse_policy_witness :
    (ctc_cost_cpu demoOracle demoActs demoLabels demoLens
        (some demoCosts) (some demoGrads)).out_costs = some demoCosts ∧
    (ctc_cost_cpu demoOracle demoActs demoLabels demoLens
        (some demoCosts) (some demoGrads)).out_gradients = some demoGrads ∧
    (ctc_cost_cpu demoOracle demoActs demoLabels demoLens
        none none).out_costs =
      some { id := 101, dims := [2], dtype := DType.float32,
             contiguous := true, data := List.replicate 2 0 } ∧
    (ctc_cost_cpu demoOracle demoActs demoLabels demoLens
        none none).out_gradients =
      some { id := 102, dims := [4, 2, 3], dtype := DType.float32,
             contiguous := true, data := List.replicate (4 * (2 * 3)) 0 } :=
  ⟨(C5_output_reuse_policy demoOracle demoActs 4 2 3 demoLabels demoLens
      (some demoCosts) (some demoGrads) rfl (Or.inl rfl) rfl rfl rfl rfl
      rfl).1 (by decide),
   (C5_output_reuse_policy demoOracle demoActs 4 2 3 demoLabels demoLens
      (some demoCosts) (some demoGrads) rfl (Or.inl rfl) rfl rfl rfl rfl
      rfl).2.2.1 (by decide),
   ((C5_output_reuse_policy demoOracle demoActs 4 2 3 demoLabels demoLens
      none none rfl (Or.inl rfl) rfl rfl rfl rfl rfl).2.1 (by decide)).1,
   ((C5_output_reuse_policy demoOracle demoActs 4 2 3 demoLabels demoLens
      none none rfl (Or.inl rfl) rfl rfl rfl rfl rfl).2.2.2 (by decide)).1⟩

theorem ctc_costs_output_isSome (o : Oracle) (oc : Option NdArray) (B : Nat)
    (hcok : o.costs_ok = true) :
    ∃ ca, ctc_costs_output o oc B = some ca := by
  rcases ctc_costs_output_cases o oc B hcok with ⟨hcr, hco⟩ | ⟨_, hco⟩
  · obtain ⟨c, hocs⟩ := spec_costs_reuse_some B oc hcr
    exact ⟨c, by rw [hco, hocs]⟩
  · exact ⟨_, hco⟩

theorem ctc_grads_output_isSome (o : Oracle) (og : Option NdArray)
    (T B A : Nat) (hgok : o.gradients_ok = true) :
    ∃ ga, ctc_grads_output o og [T, B, A] = some ga := by
  rcases ctc_grads_output_cases o og T B A hgok with ⟨hgr, hgo⟩ | ⟨_, hgo⟩
  · obtain ⟨g, hogs⟩ := spec_grads_reuse_some [T, B, A] og hgr
    exact ⟨g, by rw [hgo, hogs]⟩
  · exact ⟨_, hgo⟩

/-- C6: when the workspace malloc fails (after a successful size query),
the call destroys the context — freeing the flat-labels, label-lengths and
input-lengths buffers and releasing any contiguous activations copy —
reports an out-of-memory error, and returns 1 without ever invoking the
compute stage. -/
theorem C6_workspace_alloc_failure_cleanup (o : Oracle) (a : NdArray)
    (T B A : Nat) (l : List (List Int)) (il : List Int)
    (oc og : Option NdArray)
    (hdims : a.dims = [T, B, A])
    (hpath : a.contiguous = true ∨ o.getcontiguous_ok = true)
    (hin : o.input_lengths_ok = true)
    (hfl : o.flat_labels_ok = true)
    (hll : o.label_lengths_ok = true)
    (hcok : o.costs_ok = true)
    (hgok : o.gradients_ok = true)
    (hws : o.ws_status = CTC_STATUS_SUCCESS)
    (hwork : o.workspace_ok = false) :
    (ctc_cost_cpu o a l il oc og).ret = 1 ∧
    (ctc_cost_cpu o a l il oc og).err =
      some (PyErr.MemoryError "Failed to allocate memory for CTC workspace!") ∧
    (ctc_cost_cpu o a l il oc og).compute_invoked = false ∧
    (ctc_cost_cpu o a l il oc og).size_query_invoked = true ∧
    ∃ copts, (ctc_cost_cpu o a l il oc og).context_at_return =
      some { options := copts, workspace := none, input_lengths := none,
             flat_labels := none, label_lengths := none,
             activations_copy := none } := by
  obtain ⟨ctx, act, cp, heq⟩ := ctc_cost_cpu_eq_rest_exists o a l il oc og hpath
  have hB : a.dims.getD 1 0 = B := by rw [hdims]; rfl
  obtain ⟨ca, hco⟩ := ctc_costs_output_isSome o oc B hcok
  have hco' : ctc_costs_output o oc (a.dims.getD 1 0) = some ca := by
    rw [hB]; exact hco
  obtain ⟨ga, hgo⟩ := ctc_grads_output_isSome o og T B A hgok
  have hgo' : ctc_grads_output o og a.dims = some ga := by
    rw [hdims]; exact hgo
  have hr := heq.trans (ctc_cost_rest_eq_tail o a l il oc og ctx act cp ca ga
    hin hfl hll hco' hgo')
  have htail := ctc_cost_tail_workspace_fail o
    { ctx with
      input_lengths := some il
      flat_labels := some (spec_flat_labels l)
      label_lengths := some (l.map fun row => (spec_row_count row : Int)) }
    act cp ca ga (a.dims.getD 1 0) (a.dims.getD 2 0) hws hwork
  rw [hr, htail]
  exact ⟨rfl, rfl, rfl, rfl, ctx.options, rfl⟩

/-- Witness for C6 at concrete inputs: a failing workspace malloc with all
earlier stages succeeding yields the out-of-memory error, return value 1,
and no compute invocation. -/
theorem C6_workspace_alloc_failure_cleanup_witness :
    (ctc_cost_cpu demoWorkspaceFailOracle demoActs demoLabels demoLens
        none none).ret = 1 ∧
    (ctc_cost_cpu demoWorkspaceFailOracle demoActs demoLabels demoLens
        none none).err =
      some (PyErr.MemoryError "Failed to allocate memory for CTC workspace!") ∧
    (ctc_cost_cpu demoWorkspaceFailOracle demoActs demoLabels demoLens
        none none).compute_invoked = false :=
  ⟨(C6_workspace_alloc_failure_cleanup demoWorkspaceFailOracle demoActs
      4 2 3 demoLabels demoLens none none rfl (Or.inl rfl) rfl rfl rfl rfl
      rfl rfl rfl).1,
   (C6_workspace_alloc_failure_cleanup demoWorkspaceFailOracle demoActs
      4 2 3 demoLabels demoLens none none rfl (Or.inl rfl) rfl rfl rfl rfl
      rfl rfl rfl).2.1,
   (C6_workspace_alloc_failure_cleanup demoWorkspaceFailOracle demoActs
      4 2 3 demoLabels demoLens none none rfl (Or.inl rfl) rfl rfl rfl rfl
      rfl rfl rfl).2.2.1⟩

/-- C7: a non-success status from the external size-query or compute call
is reported as a runtime error whose message is the stage-specific text
followed by the library's own status string for that status code. -/
theorem C7_library_status_error_message (o : Oracle) (a : NdArray)
    (T B A : Nat) (l : List (List Int)) (il : List Int)
    (oc og : Option NdArray)
    (hdims : a.dims = [T, B, A])
    (hpath : a.contiguous = true ∨ o.getcontiguous_ok = true)
    (hin : o.input_lengths_ok = true)
    (hfl : o.flat_labels_ok = true)
    (hll : o.label_lengths_ok = true)
    (hcok : o.costs_ok = true)
    (hgok : o.gradients_ok = true) :
    (o.ws_status ≠ CTC_STATUS_SUCCESS →
      (ctc_cost_cpu o a l il oc og).ret = 1 ∧
      (ctc_cost_cpu o a l il oc og).err =
        some (PyErr.RuntimeError
          ("Failed to obtain CTC workspace size!" ++
            " | CTC library error message: " ++
            o.statusString o.ws_status))) ∧
    (o.ws_status = CTC_STATUS_SUCCESS → o.workspace_ok = true →
      o.compute_status ≠ CTC_STATUS_SUCCESS →
      (ctc_cost_cpu o a l il oc og).ret = 1 ∧
      (ctc_cost_cpu o a l il oc og).err =
        some (PyErr.RuntimeError
          ("Failed to compute CTC loss function!" ++
            " | CTC library error message: " ++
            o.statusString o.compute_status))) := by
  obtain ⟨ctx, act, cp, heq⟩ := ctc_cost_cpu_eq_rest_exists o a l il oc og hpath
  have hB : a.dims.getD 1 0 = B := by rw [hdims]; rfl
  obtain ⟨ca, hco⟩ := ctc_costs_output_isSome o oc B hcok
  have hco' : ctc_costs_output o oc (a.dims.getD 1 0) = some ca := by
    rw [hB]; exact hco
  obtain ⟨ga, hgo⟩ := ctc_grads_output_isSome o og T B A hgok
  have hgo' : ctc_grads_output o og a.dims = some ga := by
    rw [hdims]; exact hgo
  have hr := heq.trans (ctc_cost_rest_eq_tail o a l il oc og ctx act cp ca ga
    hin hfl hll hco' hgo')
  constructor
  · intro hws
    have htail := ctc_cost_tail_ws_fail o
      { ctx with
        input_lengths := some il
        flat_labels := some (spec_flat_labels l)
        label_lengths := some (l.map fun row => (spec_row_count row : Int)) }
      act cp ca ga (a.dims.getD 1 0) (a.dims.getD 2 0) hws
    rw [hr, htail]
    exact ⟨rfl, rfl⟩
  · intro hws hwork hcmp
    have htail := ctc_cost_tail_compute_fail o
      { ctx with
        input_lengths := some il
        flat_labels := some (spec_flat_labels l)
        label_lengths := some (l.map fun row => (spec_row_count row : Int)) }
      act cp ca ga (a.dims.getD 1 0) (a.dims.getD 2 0) hws hwork hcmp
    rw [hr, htail]
    exact ⟨rfl, rfl⟩

/-- Witness for C7 at concrete inputs: status 3 from the size query and
status 2 from the compute call each produce the runtime error with the
stage message and the library's status string. -/
theorem C7_library_status_error_message_witness :
    (ctc_cost_cpu demoSizeQueryFailOracle demoActs demoLabels demoLens
        none none).err =
      some (PyErr.RuntimeError
        ("Failed to obtain CTC workspace size!" ++
          " | CTC library error message: " ++ "unknown error")) ∧
    (ctc_cost_cpu demoComputeFailOracle demoActs demoLabels demoLens
        none none).err =
      some (PyErr.RuntimeError
        ("Failed to compute CTC loss function!" ++
          " | CTC library error message: " ++ "unknown error")) :=
  ⟨((C7_library_status_error_message demoSizeQueryFailOracle demoActs
      4 2 3 demoLabels demoLens none none rfl (Or.inl rfl) rfl rfl rfl rfl
      rfl).1 (by decide)).2,
   ((C7_library_status_error_message demoComputeFailOracle demoActs
      4 2 3 demoLabels demoLens none none rfl (Or.inl rfl) rfl rfl rfl rfl
      rfl).2 rfl rfl (by decide)).2⟩

/-- C9: the minibatch and alphabet sizes passed to the external library and
the length of the costs output are read from dimensions 1 and 2 of the
activations tensor, for every label matrix and every input-lengths vector
— so they are independent of the label matrix's row count and of the
input-lengths vector's length. -/
theorem C9_batch_alphabet_from_activations (o : Oracle) (a : NdArray)
    (T B A : Nat) (l : List (List Int)) (il : List Int)
    (oc og : Option NdArray)
    (hdims : a.dims = [T, B, A])
    (hpath : a.contiguous = true ∨ o.getcontiguous_ok = true)
    (hin : o.input_lengths_ok = true)
    (hfl : o.flat_labels_ok = true)
    (hll : o.label_lengths_ok = true)
    (hcok : o.costs_ok = true)
    (hgok : o.gradients_ok = true) :
    (ctc_cost_cpu o a l il oc og).lib_minibatch = some B ∧
    (ctc_cost_cpu o a l il oc og).lib_alphabet = some A ∧
    ∃ c, (ctc_cost_cpu o a l il oc og).out_costs = some c ∧
      c.dims = [B] := by
  obtain ⟨ctx, act, cp, heq⟩ := ctc_cost_cpu_eq_rest_exists o a l il oc og hpath
  have hB : a.dims.getD 1 0 = B := by rw [hdims]; rfl
  have hA : a.dims.getD 2 0 = A := by rw [hdims]; rfl
  obtain ⟨ca, hco, hcadims⟩ :
      ∃ ca, ctc_costs_output o oc B = some ca ∧ ca.dims = [B] := by
    rcases ctc_costs_output_cases o oc B hcok with ⟨hcr, hco⟩ | ⟨_, hco⟩
    · obtain ⟨c, hocs⟩ := spec_costs_reuse_some B oc hcr
      refine ⟨c, by rw [hco, hocs], ?_⟩
      refine spec_costs_reuse_dims B c ?_
      rw [hocs] at hcr
      exact hcr
    · exact ⟨_, hco, rfl⟩
  have hco' : ctc_costs_output o oc (a.dims.getD 1 0) = some ca := by
    rw [hB]; exact hco
  obtain ⟨ga, hgo⟩ := ctc_grads_output_isSome o og T B A hgok
  have hgo' : ctc_grads_output o og a.dims = some ga := by
    rw [hdims]; exact hgo
  have hr := heq.trans (ctc_cost_rest_eq_tail o a l il oc og ctx act cp ca ga
    hin hfl hll hco' hgo')
  have houts := ctc_cost_tail_outputs o
    { ctx with
      input_lengths := some il
      flat_labels := some (spec_flat_labels l)
      label_lengths := some (l.map fun row => (spec_row_count row : Int)) }
    act cp ca ga (a.dims.getD 1 0) (a.dims.getD 2 0)
  refine ⟨?_, ?_, ca, ?_, hcadims⟩
  · rw [hr, houts.2.2.1, hB]
  · rw [hr, houts.2.2.2.1, hA]
  · rw [hr, houts.1]

/-- Witness for C9 at concrete inputs: with activations of shape [4, 2, 3]
the library is given minibatch 2 and alphabet 3 and the costs output has
length 2, also when the label matrix has 3 rows instead of 2. -/
theorem C9_batch_alphabet_from_activations_witness :
    (ctc_cost_cpu demoOracle demoActs demoLabels demoLens
        none none).lib_minibatch = some 2 ∧
    (ctc_cost_cpu demoOracle demoActs [[0], [1], [2]] [9]
        none none).lib_minibatch = some 2 ∧
    (ctc_cost_cpu demoOracle demoActs [[0], [1], [2]] [9]
        none none).lib_alphabet = some 3 :=
  ⟨(C9_batch_alphabet_from_activations demoOracle demoActs 4 2 3 demoLabels
      demoLens none none rfl (Or.inl rfl) rfl rfl rfl rfl rfl).1,
   (C9_batch_alphabet_from_activations demoOracle demoActs 4 2 3
      [[0], [1], [2]] [9] none none rfl (Or.inl rfl) rfl rfl rfl rfl rfl).1,
   (C9_batch_alphabet_from_activations demoOracle demoActs 4 2 3
      [[0], [1], [2]] [9] none none rfl (Or.inl rfl) rfl rfl rfl rfl
      rfl).2.1⟩

theorem ctc_cost_rest_input_fail (o : Oracle) (a : NdArray)
    (l : List (List Int)) (il : List Int) (oc og : Option NdArray)
    (ctx : CtcContext) (act : Nat) (cp : Option NdArray)
    (h : o.input_lengths_ok = false) :
    ctc_cost_rest o a l il oc og ctx act cp =
      { ret := 1
        err := some (PyErr.MemoryError
          "Could not allocate storage for input lengths")
        out_costs := oc
        out_gradients := og
        context_at_return := some ctx
        activations_ptr := some act
        activations_copy_made := cp
        size_query_invoked := false
        compute_invoked := false
        lib_minibatch := none
        lib_alphabet := none
        lib_options := none } := by
  simp [ctc_cost_rest, create_contiguous_input_lengths, h]

theorem ctc_cost_rest_labels_fail (o : Oracle) (a : NdArray)
    (l : List (List Int)) (il : List Int) (oc og : Option NdArray)
    (ctx : CtcContext) (act : Nat) (cp : Option NdArray)
    (hin : o.input_lengths_ok = true)
    (hlab : o.flat_labels_ok = false ∨ o.label_lengths_ok = false) :
    ctc_cost_rest o a l il oc og ctx act cp =
      { ret := 1
        err := some (PyErr.MemoryError
          "Could not allocate storage for labels and their lengths")
        out_costs := oc
        out_gradients := og
        context_at_return := some
          { options := ctx.options, workspace := none, input_lengths := none,
            flat_labels := none, label_lengths := none,
            activations_copy := none }
        activations_ptr := some act
        activations_copy_made := cp
        size_query_invoked := false
        compute_invoked := false
        lib_minibatch := none
        lib_alphabet := none
        lib_options := none } := by
  rcases hlab with hf | hl
  · simp [ctc_cost_rest, create_contiguous_input_lengths, hin,
      create_flat_labels, hf, ctc_context_destroy]
  · cases hf2 : o.flat_labels_ok
    · simp [ctc_cost_rest, create_contiguous_input_lengths, hin,
        create_flat_labels, hf2, ctc_context_destroy]
    · simp [ctc_cost_rest, create_contiguous_input_lengths, hin,
        create_flat_labels, hf2, hl, ctc_context_destroy]

theorem ctc_cost_rest_costs_fail (o : Oracle) (a : NdArray)
    (l : List (List Int)) (il : List Int) (oc og : Option NdArray)
    (ctx : CtcContext) (act : Nat) (cp : Option NdArray)
    (hin : o.input_lengths_ok = true)
    (hfl : o.flat_labels_ok = true)
    (hll : o.label_lengths_ok = true)
    (hco : ctc_costs_output o oc (a.dims.getD 1 0) = none) :
    ctc_cost_rest o a l il oc og ctx act cp =
      { ret := 1
        err := some (PyErr.MemoryError
          "Could not allocate storage for CTC costs")
        out_costs := none
        out_gradients := og
        context_at_return := some
          { options := ctx.options, workspace := none, input_lengths := none,
            flat_labels := none, label_lengths := none,
            activations_copy := none }
        activations_ptr := some act
        activations_copy_made := cp
        size_query_invoked := false
        compute_invoked := false
        lib_minibatch := none
        lib_alphabet := none
        lib_options := none } := by
  unfold ctc_cost_rest
  simp only [create_contiguous_input_lengths, hin, if_true,
    create_flat_labels_ok, hfl, hll, hco, Option.isNone_some, Bool.or_self,
    Bool.false_eq_true, if_false, ctc_context_destroy]

theorem ctc_cost_rest_grads_fail (o : Oracle) (a : NdArray)
    (l : List (List Int)) (il : List Int) (oc og : Option NdArray)
    (ctx : CtcContext) (act : Nat) (cp : Option NdArray) (ca : NdArray)
    (hin : o.input_lengths_ok = true)
    (hfl : o.flat_labels_ok = true)
    (hll : o.label_lengths_ok = true)
    (hco : ctc_costs_output o oc (a.dims.getD 1 0) = some ca)
    (hgo : ctc_grads_output o og a.dims = none) :
    ctc_cost_rest o a l il oc og ctx act cp =
      { ret := 1
        err := some (PyErr.MemoryError
          "Could not allocate storage for CTC gradients!")
        out_costs := some ca
        out_gradients := none
        context_at_return := some
          { options := ctx.options, workspace := none, input_lengths := none,
            flat_labels := none, label_lengths := none,
            activations_copy := none }
        activations_ptr := some act
        activations_copy_made := cp
        size_query_invoked := false
        compute_invoked := false
        lib_minibatch := none
        lib_alphabet := none
        lib_options := none } := by
  unfold ctc_cost_rest
  simp only [create_contiguous_input_lengths, hin, if_true,
    create_flat_labels_ok, hfl, hll, hco, hgo, Option.isNone_some,
    Bool.or_self, Bool.false_eq_true, if_false, ctc_context_destroy]

/-- C8: every allocation failure — at the contiguous copy, the
input-lengths buffer, the flat-labels/label-lengths buffers, the costs
array, the gradients array, or the workspace — is reported as an
out-of-memory error whose message names the failed resource, makes the
call return 1 immediately, and stops the pipeline: no later stage runs and
in particular the compute call is never reached. -/
theorem C8_alloc_failures_oom_terminal (o : Oracle) (a : NdArray)
    (T B A : Nat) (l : List (List Int)) (il : List Int)
    (oc og : Option NdArray)
    (hdims : a.dims = [T, B, A]) :
    (a.contiguous = false → o.getcontiguous_ok = false →
      (ctc_cost_cpu o a l il oc og).ret = 1 ∧
      (ctc_cost_cpu o a l il oc og).err =
        some (PyErr.MemoryError
          "Could not create a contiguous copy of activations array.") ∧
      (ctc_cost_cpu o a l il oc og).size_query_invoked = false ∧
      (ctc_cost_cpu o a l il oc og).compute_invoked = false) ∧
    ((a.contiguous = true ∨ o.getcontiguous_ok = true) →
      o.input_lengths_ok = false →
      (ctc_cost_cpu o a l il oc og).ret = 1 ∧
      (ctc_cost_cpu o a l il oc og).err =
        some (PyErr.MemoryError
          "Could not allocate storage for input lengths") ∧
      (ctc_cost_cpu o a l il oc og).size_query_invoked = false ∧
      (ctc_cost_cpu o a l il oc og).compute_invoked = false) ∧
    ((a.contiguous = true ∨ o.getcontiguous_ok = true) →
      o.input_lengths_ok = true →
      (o.flat_labels_ok = false ∨ o.label_lengths_ok = false) →
      (ctc_cost_cpu o a l il oc og).ret = 1 ∧
      (ctc_cost_cpu o a l il oc og).err =
        some (PyErr.MemoryError
          "Could not allocate storage for labels and their lengths") ∧
      (ctc_cost_cpu o a l il oc og).size_query_invoked = false ∧
      (ctc_cost_cpu o a l il oc og).compute_invoked = false) ∧
    ((a.contiguous = true ∨ o.getcontiguous_ok = true) →
      o.input_lengths_ok = true → o.flat_labels_ok = true →
      o.label_lengths_ok = true → spec_costs_reuse B oc = false →
      o.costs_ok = false →
      (ctc_cost_cpu o a l il oc og).ret = 1 ∧
      (ctc_cost_cpu o a l il oc og).err =
        some (PyErr.MemoryError
          "Could not allocate storage for CTC costs") ∧
      (ctc_cost_cpu o a l il oc og).size_query_invoked = false ∧
      (ctc_cost_cpu o a l il oc og).compute_invoked = false) ∧
    ((a.contiguous = true ∨ o.getcontiguous_ok = true) →
      o.input_lengths_ok = true → o.flat_labels_ok = true →
      o.label_lengths_ok = true → o.costs_ok = true →
      spec_grads_reuse [T, B, A] og = false → o.gradients_ok = false →
      (ctc_cost_cpu o a l il oc og).ret = 1 ∧
      (ctc_cost_cpu o a l il oc og).err =
        some (PyErr.MemoryError
          "Could not allocate storage for CTC gradients!") ∧
      (ctc_cost_cpu o a l il oc og).size_query_invoked = false ∧
      (ctc_cost_cpu o a l il oc og).compute_invoked = false) ∧
    ((a.contiguous = true ∨ o.getcontiguous_ok = true) →
      o.input_lengths_ok = true → o.flat_labels_ok = true →
      o.label_lengths_ok = true → o.costs_ok = true →
      o.gradients_ok = true → o.ws_status = CTC_STATUS_SUCCESS →
      o.workspace_ok = false →
      (ctc_cost_cpu o a l il oc og).ret = 1 ∧
      (ctc_cost_cpu o a l il oc og).err =
        some (PyErr.MemoryError
          "Failed to allocate memory for CTC workspace!") ∧
      (ctc_cost_cpu o a l il oc og).size_query_invoked = true ∧
      (ctc_cost_cpu o a l il oc og).compute_invoked = false) := by
  have hB : a.dims.getD 1 0 = B := by rw [hdims]; rfl
  refine ⟨?_, ?_, ?_, ?_, ?_, ?_⟩
  · intro hc ho
    rw [ctc_cost_cpu_copy_fail o a l il oc og hc ho]
    exact ⟨rfl, rfl, rfl, rfl⟩
  · intro hpath hifail
    obtain ⟨ctx, act, cp, heq⟩ :=
      ctc_cost_cpu_eq_rest_exists o a l il oc og hpath
    rw [heq, ctc_cost_rest_input_fail o a l il oc og ctx act cp hifail]
    exact ⟨rfl, rfl, rfl, rfl⟩
  · intro hpath hin hlab
    obtain ⟨ctx, act, cp, heq⟩ :=
      ctc_cost_cpu_eq_rest_exists o a l il oc og hpath
    rw [heq, ctc_cost_rest_labels_fail o a l il oc og ctx act cp hin hlab]
    exact ⟨rfl, rfl, rfl, rfl⟩
  · intro hpath hin hfl hll hcr hcokf
    obtain ⟨ctx, act, cp, heq⟩ :=
      ctc_cost_cpu_eq_rest_exists o a l il oc og hpath
    have hco : ctc_costs_output o oc (a.dims.getD 1 0) = none := by
      rw [hB, ctc_costs_output_realloc o oc B hcr]
      simp [PyArray_ZEROS, hcokf]
    rw [heq, ctc_cost_rest_costs_fail o a l il oc og ctx act cp hin hfl
      hll hco]
    exact ⟨rfl, rfl, rfl, rfl⟩
  · intro hpath hin hfl hll hcok hgr hgokf
    obtain ⟨ctx, act, cp, heq⟩ :=
      ctc_cost_cpu_eq_rest_exists o a l il oc og hpath
    obtain ⟨ca, hcaw⟩ := ctc_costs_output_isSome o oc B hcok
    have hco : ctc_costs_output o oc (a.dims.getD 1 0) = some ca := by
      rw [hB]; exact hcaw
    have hgo : ctc_grads_output o og a.dims = none := by
      rw [hdims, ctc_grads_output_realloc o og T B A hgr]
      simp [PyArray_ZEROS, hgokf]
    rw [heq, ctc_cost_rest_grads_fail o a l il oc og ctx act cp ca hin hfl
      hll hco hgo]
    exact ⟨rfl, rfl, rfl, rfl⟩
  · intro hpath hin hfl hll hcok hgok hws hwork
    obtain ⟨ctx, act, cp, heq⟩ :=
      ctc_cost_cpu_eq_rest_exists o a l il oc og hpath
    obtain ⟨ca, hcaw⟩ := ctc_costs_output_isSome o oc B hcok
    have hco : ctc_costs_output o oc (a.dims.getD 1 0) = some ca := by
      rw [hB]; exact hcaw
    obtain ⟨ga, hgaw⟩ := ctc_grads_output_isSome o og T B A hgok
    have hgo : ctc_grads_output o og a.dims = some ga := by
      rw [hdims]; exact hgaw
    have hr := heq.trans (ctc_cost_rest_eq_tail o a l il oc og ctx act cp
      ca ga hin hfl hll hco hgo)
    have htail := ctc_cost_tail_workspace_fail o
      { ctx with
        input_lengths := some il
        flat_labels := some (spec_flat_labels l)
        label_lengths := some (l.map fun row => (spec_row_count row : Int)) }
      act cp ca ga (a.dims.getD 1 0) (a.dims.getD 2 0) hws hwork
    rw [hr, htail]
    exact ⟨rfl, rfl, rfl, rfl⟩

/-- Witness for C8 at concrete inputs: each of the six allocation-failure
sites produces its own out-of-memory message and a non-zero return with the
compute stage never invoked. -/
theorem C8_alloc_failures_oom_terminal_witness :
    (ctc_cost_cpu demoCopyFailOracle demoActsNC demoLabels demoLens
        none none).err =
      some (PyErr.MemoryError
        "Could not create a contiguous copy of activations array.") ∧
    (ctc_cost_cpu demoInputFailOracle demoActs demoLabels demoLens
        none none).err =
      some (PyErr.MemoryError
        "Could not allocate storage for input lengths") ∧
    (ctc_cost_cpu demoLabelsFailOracle demoActs demoLabels demoLens
        none none).err =
      some (PyErr.MemoryError
        "Could not allocate storage for labels and their lengths") ∧
    (ctc_cost_cpu demoCostsFailOracle demoActs demoLabels demoLens
        none none).err =
      some (PyErr.MemoryError
        "Could not allocate storage for CTC costs") ∧
    (ctc_cost_cpu demoGradsFailOracle demoActs demoLabels demoLens
        none none).err =
      some (PyErr.MemoryError
        "Could not allocate storage for CTC gradients!") ∧
    (ctc_cost_cpu demoWorkspaceFailOracle demoActs demoLabels demoLens
        none none).err =
      some (PyErr.MemoryError
        "Failed to allocate memory for CTC workspace!") ∧
    (ctc_cost_cpu demoWorkspaceFailOracle demoActs demoLabels demoLens
        none none).compute_invoked = false :=
  ⟨((C8_alloc_failures_oom_terminal demoCopyFailOracle demoActsNC 4 2 3
      demoLabels demoLens none none rfl).1 rfl rfl).2.1,
   ((C8_alloc_failures_oom_terminal demoInputFailOracle demoActs 4 2 3
      demoLabels demoLens none none rfl).2.1 (Or.inl rfl) rfl).2.1,
   ((C8_alloc_failures_oom_terminal demoLabelsFailOracle demoActs 4 2 3
      demoLabels demoLens none none rfl).2.2.1 (Or.inl rfl) rfl
      (Or.inl rfl)).2.1,
   ((C8_alloc_failures_oom_terminal demoCostsFailOracle demoActs 4 2 3
      demoLabels demoLens none none rfl).2.2.2.1 (Or.inl rfl) rfl rfl rfl
      rfl rfl).2.1,
   ((C8_alloc_failures_oom_terminal demoGradsFailOracle demoActs 4 2 3
      demoLabels demoLens none none rfl).2.2.2.2.1 (Or.inl rfl) rfl rfl rfl
      rfl rfl rfl).2.1,
   ((C8_alloc_failures_oom_terminal demoWorkspaceFailOracle demoActs 4 2 3
      demoLabels demoLens none none rfl).2.2.2.2.2 (Or.inl rfl) rfl rfl rfl
      rfl rfl rfl rfl).2.1,
   ((C8_alloc_failures_oom_terminal demoWorkspaceFailOracle demoActs 4 2 3
      demoLabels demoLens none none rfl).2.2.2.2.2 (Or.inl rfl) rfl rfl rfl
      rfl rfl rfl rfl).2.2.2⟩
